import Mathlib

/-!
Verification of the authentication and profile-caching service of
`user-auth-app` (Go). The definitions below are a shallow embedding of
`internal/services/auth.go`, `internal/repository` (sqlc queries over the
`users` table), `internal/handlers` and `internal/middleware/auth.go`.

Modelling conventions:
- machine integers (`int32` ids, Unix seconds) become `Int`;
- Go errors (`errors.New`) become `Except String`;
- the cryptographic primitives (bcrypt, HMAC-SHA256) are external
  libraries; they are modelled symbolically: the derived key / signature is
  an injective function of its inputs (collision-freeness idealisation);
- JSON (de)serialisation of a `domain.User` is modelled symbolically by
  `CacheBytes`: bytes either are the marshalling of a user or are not;
- the Redis client and the NATS connection carry injectable failure
  outcomes so that degraded behaviour is expressible;
- side effects of `Register` (hashing, persistence, publication) are
  recorded in an ordered effect trace, and log lines in a log trace.
-/

set_option autoImplicit false

namespace UserAuthApp

/-! ### Association-list primitives
These model string-keyed maps: the `sync.Map` fallback cache and the Redis
key space. Lookup finds the most recent binding; insertion replaces;
deletion removes every binding of the key. -/

/-- Look up the value bound to key `k`. -/
def lookupKV {α : Type} (l : List (String × α)) (k : String) : Option α :=
  (l.find? (fun p => p.1 == k)).map (fun p => p.2)

/-- Bind `k` to `v`, replacing any previous binding. -/
def insertKV {α : Type} (l : List (String × α)) (k : String) (v : α) : List (String × α) :=
  (k, v) :: l.filter (fun p => p.1 != k)

/-- Remove every binding of `k`. -/
def eraseKV {α : Type} (l : List (String × α)) (k : String) : List (String × α) :=
  l.filter (fun p => p.1 != k)

/-! ### Domain model (`internal/domain`, reconstructed from its uses) -/

/-- domain.User as built by the repository layer: id, username, email, role,
creation timestamp (Unix seconds). -/
structure User where
  id : Int
  username : String
  email : String
  role : String
  createdAt : Int
  deriving DecidableEq, Repr

/-- The zero value `domain.User\x7b\x7d`; `id = 0` is the "not found" sentinel. -/
def emptyUser : User := ⟨0, "", "", "", 0⟩

/-! ### Credential hasher (`golang.org/x/crypto/bcrypt`, symbolic) -/

/-- Symbolic model of a bcrypt hash string: cost, salt and the derived key.
The `key` field stands for the key-derivation output; in the symbolic model
derivation is injective in the password (no collisions). -/
structure BcryptHash where
  cost : Nat
  salt : Nat
  key : String
  deriving DecidableEq, Repr

/-- bcrypt.DefaultCost. -/
def bcryptDefaultCost : Nat := 10

/-- The error returned by bcrypt.CompareHashAndPassword on a mismatch. -/
def bcryptMismatch : String :=
  "crypto/bcrypt: hashedPassword is not the hash of the given password"

/-- bcrypt.GenerateFromPassword: rejects passwords longer than 72 bytes,
otherwise derives a salted hash. The salt, random in the library, is an
explicit entropy argument here. -/
def generateFromPassword (password : String) (cost salt : Nat) : Except String BcryptHash :=
  if password.utf8ByteSize > 72 then
    .error "bcrypt: password length exceeds 72 bytes"
  else
    .ok ⟨cost, salt, password⟩

/-- bcrypt.CompareHashAndPassword: re-derives the key from the candidate
password with the hash's salt and cost and compares. -/
def compareHashAndPassword (hash : BcryptHash) (password : String) : Except String Unit :=
  if hash.key == password then .ok () else .error bcryptMismatch

/-! ### Token issuer (`github.com/golang-jwt/jwt/v5`, symbolic HMAC) -/

/-- The claim set built in AuthService.Login: user_id, role, exp. -/
structure Claims where
  userId : Int
  role : String
  exp : Int
  deriving DecidableEq, Repr

/-- Symbolic HMAC-SHA256 signature: determined by, and only matching, the
signing secret and the signed claims. -/
structure Signature where
  secret : String
  payload : Claims
  deriving DecidableEq, Repr

/-- Produce the HS256 signature of a claim set under a secret. -/
def signHS256 (secret : String) (c : Claims) : Signature := ⟨secret, c⟩

/-- A serialized signed JWT: claims plus signature. -/
structure SignedToken where
  claims : Claims
  sig : Signature
  deriving DecidableEq, Repr

/-- jwt.NewWithClaims + SignedString as used in Login: claims
(user_id, role, exp = now + ttl) signed with the configured secret. -/
def issueToken (secret : String) (userId : Int) (role : String) (ttl now : Int) : SignedToken :=
  ⟨⟨userId, role, now + ttl⟩, signHS256 secret ⟨userId, role, now + ttl⟩⟩

/-- The externally visible verification failure (middleware rejects with
401 unauthorized in every failure case). -/
inductive TokenError where
  | tokenInvalid
  deriving DecidableEq, Repr

/-- jwt.Parse with an HS256 keyfunc, as in AuthMiddleware: the token is
valid iff the signature matches the secret and the current time is before
the exp claim; on success the claims (user_id, role) are available. -/
def verifyToken (secret : String) (tok : SignedToken) (now : Int) :
    Except TokenError (Int × String) :=
  if tok.sig = signHS256 secret tok.claims ∧ now < tok.claims.exp then
    .ok (tok.claims.userId, tok.claims.role)
  else
    .error .tokenInvalid

/-- The fixed token lifetime in Login: 24 hours, in seconds. -/
def loginTTLSeconds : Int := 24 * 60 * 60

/-! ### Persistence layer (`internal/repository`, sqlc over the users table) -/

/-- A row of the users table (schema: id SERIAL, username, email UNIQUE,
password_hash, role, created_at). -/
structure UserRow where
  id : Int
  username : String
  email : String
  passwordHash : BcryptHash
  role : String
  createdAt : Int
  deriving DecidableEq, Repr

/-- The database as seen through the repository: either healthy rows plus
the SERIAL sequence value, or a backend failure every query reports. -/
inductive DBState where
  | healthy (rows : List UserRow) (nextId : Int)
  | failing (msg : String)
  deriving DecidableEq, Repr

/-- Projection of a row to the domain.User the repository returns. -/
def toUser (r : UserRow) : User := ⟨r.id, r.username, r.email, r.role, r.createdAt⟩

/-- UserRepository.GetUserByEmail: sql.ErrNoRows is mapped to the zero
user with an empty hash and a nil error. -/
def getUserByEmail (db : DBState) (email : String) :
    Except String (User × Option BcryptHash) :=
  match db with
  | .failing msg => .error msg
  | .healthy rows _ =>
    match rows.find? (fun r => r.email == email) with
    | none => .ok (emptyUser, none)
    | some r => .ok (toUser r, some r.passwordHash)

/-- UserRepository.GetUserByID: sql.ErrNoRows is mapped to the zero user
with a nil error. -/
def getUserByID (db : DBState) (id : Int) : Except String User :=
  match db with
  | .failing msg => .error msg
  | .healthy rows _ =>
    match rows.find? (fun r => r.id == id) with
    | none => .ok emptyUser
    | some r => .ok (toUser r)

/-- UserRepository.CreateUser: INSERT ... RETURNING; the UNIQUE constraint
on email makes duplicate inserts fail; SERIAL assigns the next id and
created_at defaults to now. -/
def createUser (db : DBState) (now : Int) (username email role : String) (hash : BcryptHash) :
    Except String User × DBState :=
  match db with
  | .failing msg => (.error msg, db)
  | .healthy rows nextId =>
    if rows.any (fun r => r.email == email) then
      (.error "duplicate key value violates unique constraint", db)
    else
      (.ok (toUser ⟨nextId, username, email, hash, role, now⟩),
       .healthy (rows ++ [⟨nextId, username, email, hash, role, now⟩]) (nextId + 1))

/-! ### Cache bytes: symbolic JSON for domain.User -/

/-- Bytes held in Redis: either the json.Marshal image of a user, or bytes
that do not unmarshal as a user. -/
inductive CacheBytes where
  | userJSON (u : User)
  | corrupt (s : String)
  deriving DecidableEq, Repr

/-- json.Marshal of a domain.User (symbolic, injective). -/
def marshalUser (u : User) : CacheBytes := .userJSON u

/-- json.Unmarshal into a domain.User: succeeds exactly on marshalled
users. -/
def unmarshalUser : CacheBytes → Option User
  | .userJSON u => some u
  | .corrupt _ => none

/-! ### Redis client (shared cache mode) -/

/-- The Redis backend: its key space plus injectable failure outcomes for
Get and Set. -/
structure RedisState where
  data : List (String × CacheBytes)
  getErr : Option String
  setErr : Option String
  deriving DecidableEq, Repr

/-- Outcome of redis Get: a value, the redis.Nil miss, or a backend
error. -/
inductive RedisGetResult where
  | found (v : CacheBytes)
  | nilErr
  | err (msg : String)
  deriving DecidableEq, Repr

/-- redis Get. -/
def redisGet (r : RedisState) (k : String) : RedisGetResult :=
  match r.getErr with
  | some m => .err m
  | none =>
    match lookupKV r.data k with
    | some v => .found v
    | none => .nilErr

/-- redis Set with TTL: on backend failure the key space is unchanged and
an error is reported (the service only logs it). -/
def redisSet (r : RedisState) (k : String) (v : CacheBytes) : Option String × RedisState :=
  match r.setErr with
  | some m => (some m, r)
  | none => (none, { r with data := insertKV r.data k v })

/-! ### AuthService state and GetProfile -/

/-- The cache-relevant state of AuthService: the optional Redis client
(none = degraded mode), the sync.Map fallback, the pending expiry timers
(key, absolute deadline) spawned by degraded-mode stores, and cacheTTL. -/
structure SvcState where
  redis : Option RedisState
  cache : List (String × User)
  timers : List (String × Int)
  cacheTTL : Int
  deriving DecidableEq, Repr

/-- The cache key fmt.Sprintf("user:%d", userID). -/
def cacheKey (userID : Int) : String := "user:" ++ toString userID

/-- sync.Map.Load on the fallback cache. -/
def mapLoad (m : List (String × User)) (k : String) : Option User := lookupKV m k

/-- sync.Map.Store on the fallback cache. -/
def mapStore (m : List (String × User)) (k : String) (v : User) : List (String × User) :=
  insertKV m k v

/-- sync.Map.Delete on the fallback cache. -/
def mapDelete (m : List (String × User)) (k : String) : List (String × User) := eraseKV m k

/-- The body of the expiry goroutine spawned by a degraded-mode store:
after sleeping cacheTTL it deletes exactly the captured key from the
fallback map. -/
def runExpiry (s : SvcState) (k : String) : SvcState :=
  { s with cache := mapDelete s.cache k }

/-- The fetch-from-DB-then-cache tail of AuthService.GetProfile: repository
lookup, then best-effort population of the active cache tier; a Redis Set
failure is only logged, a degraded-mode store schedules an expiry timer at
now + cacheTTL. -/
def getProfileFetch (db : DBState) (s : SvcState) (now : Int) (key : String) (userID : Int) :
    Except String User × SvcState :=
  match getUserByID db userID with
  | .error e => (.error e, s)
  | .ok user =>
    match s.redis with
    | some r => (.ok user, { s with redis := some (redisSet r key (marshalUser user)).2 })
    | none =>
      (.ok user,
       { s with
           cache := mapStore s.cache key user
           timers := (key, now + s.cacheTTL) :: s.timers })

/-- AuthService.GetProfile: try the active cache tier first; in shared mode
a hit that unmarshals is returned, an unmarshal failure, a redis.Nil miss
and a logged backend error all fall through to the repository; in degraded
mode a sync.Map hit is returned and a miss falls through. -/
def getProfile (db : DBState) (s : SvcState) (now : Int) (userID : Int) :
    Except String User × SvcState :=
  let key := cacheKey userID
  match s.redis with
  | some r =>
    match redisGet r key with
    | .found val =>
      match unmarshalUser val with
      | some user => (.ok user, s)
      | none => getProfileFetch db s now key userID
    | .nilErr => getProfileFetch db s now key userID
    | .err _ => getProfileFetch db s now key userID
  | none =>
    match mapLoad s.cache key with
    | some user => (.ok user, s)
    | none => getProfileFetch db s now key userID

/-! ### NATS connection and Register -/

/-- The NATS connection with an injectable Publish outcome
(none = Publish succeeds). -/
structure NatsConn where
  publishErr : Option String
  deriving DecidableEq, Repr

/-- The fmt.Sprintf payload published on registration. -/
def registerMsg (id : Int) (email : String) : String :=
  "\x7b\"user_id\": " ++ toString id ++ ", \"email\": \"" ++ email ++ "\"\x7d"

/-- One observable side effect of Register, in call order. -/
inductive Effect where
  | hashPassword (password : String)
  | persistUser (username email role : String) (hash : BcryptHash)
  | publish (topic payload : String)
  deriving DecidableEq, Repr

deriving instance DecidableEq for Except

/-- The full outcome of a Register call: the returned value or error, the
database afterwards, the ordered effect trace and the error-log lines. -/
structure RegisterOutcome where
  result : Except String User
  db : DBState
  effects : List Effect
  logs : List String
  deriving DecidableEq, Repr

/-- AuthService.Register: reject an empty password, bcrypt-hash, persist,
then, if the NATS connection exists, publish topic "user.verify" with the
user id and email; a publish error is logged and otherwise ignored. -/
def register (db : DBState) (nats : Option NatsConn) (salt : Nat) (now : Int)
    (username email password role : String) : RegisterOutcome :=
  if password = "" then
    ⟨.error "password required", db, [], []⟩
  else
    match generateFromPassword password bcryptDefaultCost salt with
    | .error e => ⟨.error e, db, [.hashPassword password], []⟩
    | .ok hash =>
      match createUser db now username email role hash with
      | (.error e, db2) =>
        ⟨.error e, db2, [.hashPassword password, .persistUser username email role hash],
         ["failed to create user"]⟩
      | (.ok created, db2) =>
        match nats with
        | none =>
          ⟨.ok created, db2,
           [.hashPassword password, .persistUser username email role hash], []⟩
        | some nc =>
          ⟨.ok created, db2,
           [.hashPassword password, .persistUser username email role hash,
            .publish "user.verify" (registerMsg created.id created.email)],
           match nc.publishErr with
           | some _ => ["failed to publish verification message"]
           | none => []⟩

/-! ### Login -/

/-- AuthService.Login: repository lookup by email; the id-zero sentinel
becomes the "user not found" error; a bcrypt mismatch (or the unparsable
empty stored hash of the sentinel path) becomes "invalid password";
otherwise a 24-hour token is issued. -/
def login (db : DBState) (secret : String) (now : Int) (email password : String) :
    Except String SignedToken :=
  match getUserByEmail db email with
  | .error e => .error e
  | .ok (user, storedHash) =>
    if user.id = 0 then .error "user not found"
    else
      match storedHash with
      | none => .error "invalid password"
      | some hash =>
        match compareHashAndPassword hash password with
        | .error _ => .error "invalid password"
        | .ok _ => .ok (issueToken secret user.id user.role loginTTLSeconds now)

/-! ### Handler layer (`internal/handlers`) -/

/-- An HTTP response body: an ErrorResponse message, a user document or a
token document. -/
inductive Body where
  | msg (s : String)
  | userJSON (u : User)
  | tokenJSON (t : SignedToken)
  deriving DecidableEq, Repr

/-- The externally observable response: status code and body. -/
structure HTTPResponse where
  status : Nat
  body : Body
  deriving DecidableEq, Repr

/-- Modelled from the spec: the validator collaborator
(internal/validator, whose source is not in the repository snapshot)
rejects a missing required field; modelled as nonemptiness. -/
def validateRequired (value : String) : Bool := value ≠ ""

/-- AuthHandler.Login: after required-field validation, every service
error is mapped to 401 "invalid credentials"; success returns the token. -/
def handlerLogin (db : DBState) (secret : String) (now : Int) (email password : String) :
    HTTPResponse :=
  if validateRequired email && validateRequired password then
    match login db secret now email password with
    | .error _ => ⟨401, .msg "invalid credentials"⟩
    | .ok tok => ⟨200, .tokenJSON tok⟩
  else
    ⟨400, .msg "validation failed"⟩

/-- AuthHandler.GetProfile (after id parsing and range checks): a service
error is 500 "internal server error"; the id-zero sentinel is 404 "user
not found"; otherwise 200 with the user. -/
def handlerGetProfile (db : DBState) (s : SvcState) (now userID : Int) :
    HTTPResponse × SvcState :=
  match getProfile db s now userID with
  | (.error _, s2) => (⟨500, .msg "internal server error"⟩, s2)
  | (.ok u, s2) =>
    if u.id = 0 then (⟨404, .msg "user not found"⟩, s2)
    else (⟨200, .userJSON u⟩, s2)

/-! ### Lemmas about the association-list primitives -/

theorem lookupKV_cons {α : Type} (k0 : String) (v0 : α) (t : List (String × α)) (k : String) :
    lookupKV ((k0, v0) :: t) k = if k0 == k then some v0 else lookupKV t k := by
  by_cases h : (k0 == k) = true
  · simp [lookupKV, List.find?_cons_of_pos, h]
  · simp [lookupKV, List.find?_cons_of_neg, h]

theorem lookupKV_insert_self {α : Type} (l : List (String × α)) (k : String) (v : α) :
    lookupKV (insertKV l k v) k = some v := by
  simp [insertKV, lookupKV_cons]

theorem lookupKV_erase_self {α : Type} (l : List (String × α)) (k : String) :
    lookupKV (eraseKV l k) k = none := by
  have h : (eraseKV l k).find? (fun p => p.1 == k) = none := by
    rw [List.find?_eq_none]
    intro a ha
    have hm := (List.mem_filter.mp ha).2
    simp only [bne_iff_ne, ne_eq] at hm
    simpa using hm
  simp [lookupKV, h]

theorem lookupKV_erase_ne {α : Type} (l : List (String × α)) (k k2 : String) (h : k2 ≠ k) :
    lookupKV (eraseKV l k) k2 = lookupKV l k2 := by
  induction l with
  | nil => rfl
  | cons p t ih =>
    rcases p with ⟨k0, v0⟩
    by_cases h0 : k0 = k
    · subst h0
      have hne : (k0 == k2) = false := by
        simp only [beq_eq_false_iff_ne, ne_eq]
        exact fun he => h he.symm
      simp only [eraseKV] at ih
      simp [eraseKV, List.filter_cons, lookupKV_cons, hne, ih]
    · have hb : (k0 != k) = true := by simpa using h0
      simp only [eraseKV, List.filter_cons, hb, if_true] at ih ⊢
      simp [lookupKV_cons, ih]

theorem eraseKV_idem {α : Type} (l : List (String × α)) (k : String) :
    eraseKV (eraseKV l k) k = eraseKV l k := by
  simp [eraseKV, List.filter_filter]

/-! ### Claim theorems -/

/-- C2: verifying the token produced by issue(subject, role, ttl) with the
same signing secret yields exactly (subject, role) when checked before
issuance time + ttl, and fails with TokenInvalid once the current time is
at or past issuance time + ttl or the signature does not match. -/
theorem token_roundtrip_and_expiry (secret : String) (subject : Int) (role : String)
    (ttl now t : Int) (forged : Signature) :
    (t < now + ttl →
      verifyToken secret (issueToken secret subject role ttl now) t = .ok (subject, role)) ∧
    (now + ttl ≤ t →
      verifyToken secret (issueToken secret subject role ttl now) t = .error .tokenInvalid) ∧
    (forged ≠ signHS256 secret ⟨subject, role, now + ttl⟩ →
      verifyToken secret ⟨⟨subject, role, now + ttl⟩, forged⟩ t = .error .tokenInvalid) := by
  refine ⟨fun h => ?_, fun h => ?_, fun h => ?_⟩
  · simp [verifyToken, issueToken, h]
  · have hn : ¬ t < now + ttl := by omega
    simp [verifyToken, issueToken, hn]
  · simp [verifyToken, h]

/-- Witness for C2 at a concrete token. -/
theorem token_roundtrip_and_expiry_witness :
    verifyToken "s" (issueToken "s" 1 "admin" 86400 0) 10 = .ok (1, "admin") ∧
    verifyToken "s" (issueToken "s" 1 "admin" 86400 0) 86400 = .error .tokenInvalid ∧
    verifyToken "s" ⟨⟨1, "admin", 0 + 86400⟩, ⟨"x", ⟨1, "admin", 0 + 86400⟩⟩⟩ 5 =
      .error .tokenInvalid :=
  ⟨(token_roundtrip_and_expiry "s" 1 "admin" 86400 0 10 ⟨"x", ⟨1, "admin", 86400⟩⟩).1
      (by decide),
   (token_roundtrip_and_expiry "s" 1 "admin" 86400 0 86400 ⟨"x", ⟨1, "admin", 86400⟩⟩).2.1
      (by decide),
   (token_roundtrip_and_expiry "s" 1 "admin" 86400 0 5 ⟨"x", ⟨1, "admin", 0 + 86400⟩⟩).2.2
      (by decide)⟩

/-- C3: verify(P, hash(P)) returns true, and for distinct passwords P and
P2, verify(P, hash(P2)) returns false (under the collision-free symbolic
model of bcrypt key derivation). -/
theorem bcrypt_verify_roundtrip (p p2 : String) (cost salt cost2 salt2 : Nat)
    (h h2 : BcryptHash)
    (hgen : generateFromPassword p cost salt = .ok h)
    (hgen2 : generateFromPassword p2 cost2 salt2 = .ok h2)
    (hne : p ≠ p2) :
    compareHashAndPassword h p = .ok () ∧
    compareHashAndPassword h2 p = .error bcryptMismatch := by
  unfold generateFromPassword at hgen hgen2
  split at hgen
  · exact absurd hgen (by simp)
  · split at hgen2
    · exact absurd hgen2 (by simp)
    · simp only [Except.ok.injEq] at hgen hgen2
      subst hgen
      subst hgen2
      constructor
      · simp [compareHashAndPassword]
      · have : (p2 == p) = false := by
          simp only [beq_eq_false_iff_ne, ne_eq]
          exact fun he => hne he.symm
        simp [compareHashAndPassword, this]

/-- Witness for C3 at concrete passwords. -/
theorem bcrypt_verify_roundtrip_witness :
    compareHashAndPassword ⟨10, 3, "Secret123"⟩ "Secret123" = .ok () ∧
    compareHashAndPassword ⟨10, 4, "wrong"⟩ "Secret123" = .error bcryptMismatch :=
  bcrypt_verify_roundtrip "Secret123" "wrong" 10 3 10 4 ⟨10, 3, "Secret123"⟩ ⟨10, 4, "wrong"⟩
    rfl rfl (by decide)

/-- C8: in degraded (in-process) cache mode, a get(k) right after
put(k, v) returns the value; once the scheduled expiry action for k has
run, it has deleted exactly key k: get(k) misses and every other key is
untouched. -/
theorem degraded_cache_put_get_expiry (m : List (String × User))
    (tm : List (String × Int)) (ttl : Int) (k k2 : String) (v : User) (hne : k2 ≠ k) :
    mapLoad (mapStore m k v) k = some v ∧
    mapLoad (runExpiry ⟨none, mapStore m k v, tm, ttl⟩ k).cache k = none ∧
    mapLoad (runExpiry ⟨none, mapStore m k v, tm, ttl⟩ k).cache k2 =
      mapLoad (mapStore m k v) k2 := by
  refine ⟨lookupKV_insert_self m k v, ?_, ?_⟩
  · exact lookupKV_erase_self (mapStore m k v) k
  · exact lookupKV_erase_ne (mapStore m k v) k k2 hne

/-- Witness for C8 at a concrete cache. -/
theorem degraded_cache_put_get_expiry_witness :
    mapLoad (mapStore [("user:2", emptyUser)] "user:1" ⟨1, "a", "a@x.com", "user", 0⟩)
      "user:1" = some ⟨1, "a", "a@x.com", "user", 0⟩ ∧
    mapLoad (runExpiry
      ⟨none, mapStore [("user:2", emptyUser)] "user:1" ⟨1, "a", "a@x.com", "user", 0⟩,
       [], 300⟩ "user:1").cache "user:1" = none ∧
    mapLoad (runExpiry
      ⟨none, mapStore [("user:2", emptyUser)] "user:1" ⟨1, "a", "a@x.com", "user", 0⟩,
       [], 300⟩ "user:1").cache "user:2" =
      mapLoad (mapStore [("user:2", emptyUser)] "user:1" ⟨1, "a", "a@x.com", "user", 0⟩)
        "user:2" :=
  degraded_cache_put_get_expiry [("user:2", emptyUser)] [] 300 "user:1" "user:2"
    ⟨1, "a", "a@x.com", "user", 0⟩ (by decide)

/-- C1: a Login with a non-existent email and a Login with an existing
email but a non-matching password produce the identical externally
observable error: the same 401 "invalid credentials" response. -/
theorem login_enumeration_indistinguishable (rows : List UserRow) (nextId : Int)
    (secret : String) (now : Int) (goodEmail ghostEmail pw ghostPw : String) (row : UserRow)
    (hfind : rows.find? (fun r => r.email == goodEmail) = some row)
    (habs : rows.find? (fun r => r.email == ghostEmail) = none)
    (hbad : compareHashAndPassword row.passwordHash pw = .error bcryptMismatch)
    (hge : goodEmail ≠ "") (hgp : pw ≠ "") (hbe : ghostEmail ≠ "") (hbp : ghostPw ≠ "") :
    handlerLogin (.healthy rows nextId) secret now ghostEmail ghostPw =
      handlerLogin (.healthy rows nextId) secret now goodEmail pw ∧
    handlerLogin (.healthy rows nextId) secret now goodEmail pw =
      ⟨401, .msg "invalid credentials"⟩ := by
  have hgood : handlerLogin (.healthy rows nextId) secret now goodEmail pw =
      ⟨401, .msg "invalid credentials"⟩ := by
    by_cases hid : (toUser row).id = 0
    · simp [handlerLogin, validateRequired, hge, hgp, login, getUserByEmail, hfind, hid]
    · simp [handlerLogin, validateRequired, hge, hgp, login, getUserByEmail, hfind, hid, hbad]
  have hghost : handlerLogin (.healthy rows nextId) secret now ghostEmail ghostPw =
      ⟨401, .msg "invalid credentials"⟩ := by
    simp [handlerLogin, validateRequired, hbe, hbp, login, getUserByEmail, habs, emptyUser]
  exact ⟨hghost.trans hgood.symm, hgood⟩

/-- Witness for C1 at a concrete user table. -/
theorem login_enumeration_indistinguishable_witness :
    handlerLogin (.healthy [⟨1, "alice", "a@x.com", ⟨10, 0, "Secret123"⟩, "user", 0⟩] 2)
        "s" 0 "b@x.com" "x" =
      handlerLogin (.healthy [⟨1, "alice", "a@x.com", ⟨10, 0, "Secret123"⟩, "user", 0⟩] 2)
        "s" 0 "a@x.com" "wrong" ∧
    handlerLogin (.healthy [⟨1, "alice", "a@x.com", ⟨10, 0, "Secret123"⟩, "user", 0⟩] 2)
        "s" 0 "a@x.com" "wrong" = ⟨401, .msg "invalid credentials"⟩ :=
  login_enumeration_indistinguishable
    [⟨1, "alice", "a@x.com", ⟨10, 0, "Secret123"⟩, "user", 0⟩] 2 "s" 0
    "a@x.com" "b@x.com" "wrong" "x" ⟨1, "alice", "a@x.com", ⟨10, 0, "Secret123"⟩, "user", 0⟩
    rfl rfl rfl (by decide) (by decide) (by decide) (by decide)

/-- C4 counterexample: for an absent user id with a cache miss,
AuthService.GetProfile does not fail: it returns the id-zero sentinel user
with a nil error (and even caches the sentinel). -/
theorem getProfile_absent_user_no_error :
    getProfile (.healthy [] 1) ⟨none, [], [], 300⟩ 0 5 =
      (.ok emptyUser, ⟨none, [(cacheKey 5, emptyUser)], [(cacheKey 5, 0 + 300)], 300⟩) := by
  rfl

/-- C4 (amended): for an absent user id with a cache miss, the service
returns the id-zero sentinel with no error, and the handler layer maps the
sentinel to a 404 "user not found" response, distinguishable from the 500
"internal server error" response produced by a persistence failure. -/
theorem getProfile_absent_surfaces_not_found (rows : List UserRow) (nextId : Int)
    (mc : List (String × User)) (tm : List (String × Int)) (ttl uid now : Int) (m : String)
    (habs : rows.find? (fun r => r.id == uid) = none)
    (hmiss : mapLoad mc (cacheKey uid) = none) :
    (getProfile (.healthy rows nextId) ⟨none, mc, tm, ttl⟩ now uid).1 = .ok emptyUser ∧
    (handlerGetProfile (.healthy rows nextId) ⟨none, mc, tm, ttl⟩ now uid).1 =
      ⟨404, .msg "user not found"⟩ ∧
    (handlerGetProfile (.failing m) ⟨none, mc, tm, ttl⟩ now uid).1 =
      ⟨500, .msg "internal server error"⟩ := by
  have hfetch : getProfile (.healthy rows nextId) ⟨none, mc, tm, ttl⟩ now uid =
      (.ok emptyUser,
       ⟨none, mapStore mc (cacheKey uid) emptyUser, (cacheKey uid, now + ttl) :: tm, ttl⟩) := by
    simp [getProfile, hmiss, getProfileFetch, getUserByID, habs]
  have hfail : getProfile (.failing m) ⟨none, mc, tm, ttl⟩ now uid =
      (.error m, ⟨none, mc, tm, ttl⟩) := by
    simp [getProfile, hmiss, getProfileFetch, getUserByID]
  refine ⟨by rw [hfetch], ?_, ?_⟩
  · simp [handlerGetProfile, hfetch, emptyUser]
  · simp [handlerGetProfile, hfail]

/-- Witness for the amended C4 at a concrete empty table. -/
theorem getProfile_absent_surfaces_not_found_witness :
    (getProfile (.healthy [] 1) ⟨none, [], [], 300⟩ 0 5).1 = .ok emptyUser ∧
    (handlerGetProfile (.healthy [] 1) ⟨none, [], [], 300⟩ 0 5).1 =
      ⟨404, .msg "user not found"⟩ ∧
    (handlerGetProfile (.failing "connection refused") ⟨none, [], [], 300⟩ 0 5).1 =
      ⟨500, .msg "internal server error"⟩ :=
  getProfile_absent_surfaces_not_found [] 1 [] [] 300 5 0 "connection refused" rfl rfl

/-- C5 counterexample: a successful Register publishes on topic
"user.verify", not "user.registered". -/
theorem register_topic_is_user_verify :
    (register (.healthy [] 1) (some ⟨none⟩) 0 0 "alice" "a@x.com" "pw" "user").effects =
      [.hashPassword "pw", .persistUser "alice" "a@x.com" "user" ⟨10, 0, "pw"⟩,
       .publish "user.verify" (registerMsg 1 "a@x.com")] ∧
    (register (.healthy [] 1) (some ⟨none⟩) 0 0 "alice" "a@x.com" "pw" "user").result =
      .ok ⟨1, "alice", "a@x.com", "user", 0⟩ ∧
    "user.verify" ≠ "user.registered" := by
  refine ⟨by rfl, by rfl, by decide⟩

/-- C5 (amended): every Register call that succeeds while the event-bus
connection is available publishes exactly one notification, with topic
"user.verify" and a payload carrying the created user's id and email, and
the publication is attempted only after hashing and persistence, whatever
the publish outcome. -/
theorem register_success_publishes_verify (db : DBState) (pubErr : Option String)
    (salt : Nat) (now : Int) (username email password role : String) (created : User)
    (h : BcryptHash)
    (hgen : generateFromPassword password bcryptDefaultCost salt = .ok h)
    (hok : (register db (some ⟨pubErr⟩) salt now username email password role).result =
      .ok created) :
    (register db (some ⟨pubErr⟩) salt now username email password role).effects =
      [.hashPassword password, .persistUser username email role h,
       .publish "user.verify" (registerMsg created.id created.email)] := by
  by_cases hp : password = ""
  · simp [register, hp] at hok
  · rcases hc : createUser db now username email role h with ⟨res, db2⟩
    cases res with
    | error e => simp [register, hp, hgen, hc] at hok
    | ok c2 =>
      have hcreated : c2 = created := by simpa [register, hp, hgen, hc] using hok
      subst hcreated
      simp [register, hp, hgen, hc]

/-- Witness for the amended C5 at a concrete registration with a failing
publish. -/
theorem register_success_publishes_verify_witness :
    (register (.healthy [] 1) (some ⟨some "boom"⟩) 0 0 "alice" "a@x.com" "pw" "user").effects =
      [.hashPassword "pw", .persistUser "alice" "a@x.com" "user" ⟨10, 0, "pw"⟩,
       .publish "user.verify" (registerMsg 1 "a@x.com")] :=
  register_success_publishes_verify (.healthy [] 1) (some "boom") 0 0 "alice" "a@x.com"
    "pw" "user" ⟨1, "alice", "a@x.com", "user", 0⟩ ⟨10, 0, "pw"⟩ rfl rfl

/-- C6: once persistence has succeeded, a failure of the event-bus publish
does not change Register's return value, final database or effect trace:
the created user is returned with no error, identically to a run where the
publish succeeds. -/
theorem register_ignores_publish_failure (db : DBState) (salt : Nat) (now : Int)
    (username email password role : String) (pubErr : Option String) (created : User)
    (h : BcryptHash) (hp : password ≠ "")
    (hgen : generateFromPassword password bcryptDefaultCost salt = .ok h)
    (hper : (createUser db now username email role h).1 = .ok created) :
    (register db (some ⟨pubErr⟩) salt now username email password role).result =
      .ok created ∧
    (register db (some ⟨pubErr⟩) salt now username email password role).result =
      (register db (some ⟨none⟩) salt now username email password role).result ∧
    (register db (some ⟨pubErr⟩) salt now username email password role).db =
      (register db (some ⟨none⟩) salt now username email password role).db ∧
    (register db (some ⟨pubErr⟩) salt now username email password role).effects =
      (register db (some ⟨none⟩) salt now username email password role).effects := by
  rcases hc : createUser db now username email role h with ⟨res, db2⟩
  rw [hc] at hper
  simp only at hper
  subst hper
  simp [register, hp, hgen, hc]

/-- Witness for C6 at a concrete registration with a failing publish. -/
theorem register_ignores_publish_failure_witness :
    (register (.healthy [] 1) (some ⟨some "boom"⟩) 0 0 "alice" "a@x.com" "pw" "user").result =
      .ok ⟨1, "alice", "a@x.com", "user", 0⟩ ∧
    (register (.healthy [] 1) (some ⟨some "boom"⟩) 0 0 "alice" "a@x.com" "pw" "user").result =
      (register (.healthy [] 1) (some ⟨none⟩) 0 0 "alice" "a@x.com" "pw" "user").result ∧
    (register (.healthy [] 1) (some ⟨some "boom"⟩) 0 0 "alice" "a@x.com" "pw" "user").db =
      (register (.healthy [] 1) (some ⟨none⟩) 0 0 "alice" "a@x.com" "pw" "user").db ∧
    (register (.healthy [] 1) (some ⟨some "boom"⟩) 0 0 "alice" "a@x.com" "pw" "user").effects =
      (register (.healthy [] 1) (some ⟨none⟩) 0 0 "alice" "a@x.com" "pw" "user").effects :=
  register_ignores_publish_failure (.healthy [] 1) 0 0 "alice" "a@x.com" "pw" "user"
    (some "boom") ⟨1, "alice", "a@x.com", "user", 0⟩ ⟨10, 0, "pw"⟩ (by decide) rfl rfl

/-- C7: on a shared-mode cache miss whose persistence fetch succeeds, a
failure of the subsequent cache put does not change the call's result: the
fetched user is returned with no error, identically to a run where the put
succeeds. -/
theorem getProfile_ignores_cache_put_failure (db : DBState)
    (d : List (String × CacheBytes)) (se : Option String) (mc : List (String × User))
    (tm : List (String × Int)) (ttl uid now : Int) (u : User)
    (hmiss : lookupKV d (cacheKey uid) = none)
    (hdb : getUserByID db uid = .ok u) :
    (getProfile db ⟨some ⟨d, none, se⟩, mc, tm, ttl⟩ now uid).1 = .ok u ∧
    (getProfile db ⟨some ⟨d, none, se⟩, mc, tm, ttl⟩ now uid).1 =
      (getProfile db ⟨some ⟨d, none, none⟩, mc, tm, ttl⟩ now uid).1 := by
  have hA : ∀ se2 : Option String,
      (getProfile db ⟨some ⟨d, none, se2⟩, mc, tm, ttl⟩ now uid).1 = .ok u := by
    intro se2
    simp [getProfile, redisGet, hmiss, getProfileFetch, hdb]
  exact ⟨hA se, (hA se).trans (hA none).symm⟩

/-- Witness for C7 at a concrete table and a failing Redis Set. -/
theorem getProfile_ignores_cache_put_failure_witness :
    (getProfile (.healthy [⟨7, "bob", "b@x.com", ⟨10, 0, "pw"⟩, "user", 0⟩] 8)
        ⟨some ⟨[], none, some "backend down"⟩, [], [], 300⟩ 0 7).1 =
      .ok ⟨7, "bob", "b@x.com", "user", 0⟩ ∧
    (getProfile (.healthy [⟨7, "bob", "b@x.com", ⟨10, 0, "pw"⟩, "user", 0⟩] 8)
        ⟨some ⟨[], none, some "backend down"⟩, [], [], 300⟩ 0 7).1 =
      (getProfile (.healthy [⟨7, "bob", "b@x.com", ⟨10, 0, "pw"⟩, "user", 0⟩] 8)
        ⟨some ⟨[], none, none⟩, [], [], 300⟩ 0 7).1 :=
  getProfile_ignores_cache_put_failure
    (.healthy [⟨7, "bob", "b@x.com", ⟨10, 0, "pw"⟩, "user", 0⟩] 8) [] (some "backend down")
    [] [] 300 7 0 ⟨7, "bob", "b@x.com", "user", 0⟩ rfl rfl

/-- C10: in shared mode, when the cache holds a value for the key that
fails to unmarshal as a user, GetProfile neither fails nor returns the
corrupt value: it fetches from persistence and its outcome equals that of
the same call on a genuine cache miss. -/
theorem corrupt_cache_entry_behaves_as_miss (db : DBState)
    (d : List (String × CacheBytes)) (mc : List (String × User))
    (tm : List (String × Int)) (ttl uid now : Int) (bad : CacheBytes) (u : User)
    (hbad : lookupKV d (cacheKey uid) = some bad)
    (hnp : unmarshalUser bad = none)
    (hdb : getUserByID db uid = .ok u) :
    (getProfile db ⟨some ⟨d, none, none⟩, mc, tm, ttl⟩ now uid).1 = .ok u ∧
    getProfile db ⟨some ⟨d, none, none⟩, mc, tm, ttl⟩ now uid =
      getProfile db ⟨some ⟨eraseKV d (cacheKey uid), none, none⟩, mc, tm, ttl⟩ now uid := by
  have h1 : getProfile db ⟨some ⟨d, none, none⟩, mc, tm, ttl⟩ now uid =
      (.ok u, ⟨some ⟨insertKV d (cacheKey uid) (marshalUser u), none, none⟩, mc, tm, ttl⟩) := by
    simp [getProfile, redisGet, hbad, hnp, getProfileFetch, hdb, redisSet]
  have h2 : getProfile db ⟨some ⟨eraseKV d (cacheKey uid), none, none⟩, mc, tm, ttl⟩ now uid =
      (.ok u, ⟨some ⟨insertKV (eraseKV d (cacheKey uid)) (cacheKey uid) (marshalUser u),
        none, none⟩, mc, tm, ttl⟩) := by
    simp [getProfile, redisGet, lookupKV_erase_self, getProfileFetch, hdb, redisSet]
  have h3 : insertKV (eraseKV d (cacheKey uid)) (cacheKey uid) (marshalUser u) =
      insertKV d (cacheKey uid) (marshalUser u) := by
    simp [insertKV, eraseKV, List.filter_filter, Bool.and_self]
  rw [h1, h2, h3]
  exact ⟨rfl, rfl⟩

/-- Witness for C10 at a concrete corrupt cache entry. -/
theorem corrupt_cache_entry_behaves_as_miss_witness :
    (getProfile (.healthy [⟨7, "bob", "b@x.com", ⟨10, 0, "pw"⟩, "user", 0⟩] 8)
        ⟨some ⟨[(cacheKey 7, .corrupt "junk")], none, none⟩, [], [], 300⟩ 0 7).1 =
      .ok ⟨7, "bob", "b@x.com", "user", 0⟩ ∧
    getProfile (.healthy [⟨7, "bob", "b@x.com", ⟨10, 0, "pw"⟩, "user", 0⟩] 8)
        ⟨some ⟨[(cacheKey 7, .corrupt "junk")], none, none⟩, [], [], 300⟩ 0 7 =
      getProfile (.healthy [⟨7, "bob", "b@x.com", ⟨10, 0, "pw"⟩, "user", 0⟩] 8)
        ⟨some ⟨eraseKV [(cacheKey 7, .corrupt "junk")] (cacheKey 7), none, none⟩,
         [], [], 300⟩ 0 7 :=
  corrupt_cache_entry_behaves_as_miss
    (.healthy [⟨7, "bob", "b@x.com", ⟨10, 0, "pw"⟩, "user", 0⟩] 8)
    [(cacheKey 7, .corrupt "junk")] [] [] 300 7 0 (.corrupt "junk")
    ⟨7, "bob", "b@x.com", "user", 0⟩ rfl rfl rfl

/-- C9: Register with an empty password fails with the empty-credential
error "password required" and has no effect: no hash computed, nothing
persisted, nothing published, nothing logged. -/
theorem register_empty_password_no_effect (db : DBState) (nats : Option NatsConn)
    (salt : Nat) (now : Int) (username email role : String) :
    register db nats salt now username email "" role =
      ⟨.error "password required", db, [], []⟩ := by
  simp [register]

end UserAuthApp
